import Mathlib

/-!
Verification of the decman configuration module (`src/decman/config.py`).

The module is a command-abstraction layer: a `Commands` class whose methods
each build the argument vector for one external-process invocation, a
process-wide registry (`commands`) holding the active implementation, and a
handful of scalar configuration values.  Each method of the default
implementation is embedded below as a Lean function on `List String`
(argument vectors are ordered lists of opaque string tokens).
-/

namespace Decman

namespace Commands

/-- Source method `Commands.list_pkgs`. -/
def list_pkgs : List String := ["pacman", "-Qeq", "--color=never"]

/-- Source method `Commands.list_foreign_pkgs_versioned`. -/
def list_foreign_pkgs_versioned : List String := ["pacman", "-Qm", "--color=never"]

/-- Source method `Commands.install_pkgs`. -/
def install_pkgs (pkgs : List String) : List String :=
  ["pacman", "-S", "--asexplicit"] ++ pkgs

/-- Source method `Commands.install_files`. -/
def install_files (pkg_files : List String) : List String :=
  ["pacman", "-U", "--asdeps"] ++ pkg_files

/-- Source method `Commands.set_as_explicitly_installed`. -/
def set_as_explicitly_installed (pkgs : List String) : List String :=
  ["pacman", "-D", "--asexplicit"] ++ pkgs

/-- Source method `Commands.install_deps`. -/
def install_deps (deps : List String) : List String :=
  ["pacman", "-S", "--needed", "--asdeps"] ++ deps

/-- Source method `Commands.is_installable`. -/
def is_installable (pkg : String) : List String :=
  ["pacman", "-Sddp", pkg]

/-- Source method `Commands.upgrade`. -/
def upgrade : List String := ["pacman", "-Syu"]

/-- Source method `Commands.remove`. -/
def remove (pkgs : List String) : List String :=
  ["pacman", "-Rs"] ++ pkgs

/-- Source method `Commands.enable_units`. -/
def enable_units (units : List String) : List String :=
  ["systemctl", "enable", "--now", "--quiet"] ++ units

/-- Source method `Commands.disable_units`. -/
def disable_units (units : List String) : List String :=
  ["systemctl", "disable", "--quiet"] ++ units

/-- Source method `Commands.enable_user_units`. -/
def enable_user_units (units : List String) : List String :=
  ["systemctl", "enable", "--now", "--quiet", "--user"] ++ units

/-- Source method `Commands.disable_user_units`.  Note: the source returns the
same tokens as `disable_units`, with no user-session flag, although its
docstring says it disables the units for the user it is run as. -/
def disable_user_units (units : List String) : List String :=
  ["systemctl", "disable", "--quiet"] ++ units

/-- Source method `Commands.compare_versions`. -/
def compare_versions (installed_version : String) (new_version : String) : List String :=
  ["vercmp", installed_version, new_version]

/-- Source method `Commands.git_clone`. -/
def git_clone (repo : String) (dest : String) : List String :=
  ["git", "clone", repo, dest]

/-- Source method `Commands.git_diff`. -/
def git_diff (from_commit : String) : List String :=
  ["git", "diff", from_commit]

/-- Source method `Commands.git_get_commit_id`. -/
def git_get_commit_id : List String := ["git", "rev-parse", "HEAD"]

/-- Source method `Commands.review_file`. -/
def review_file (file : String) : List String :=
  ["less", file]

/-- Source method `Commands.make_chroot`. -/
def make_chroot (chroot_root_dir : String) (with_pkgs : List String) : List String :=
  ["mkarchroot", chroot_root_dir] ++ with_pkgs

/-- Source method `Commands.make_chroot_pkg`: starts from the five fixed
tokens and appends `["-I", pkgfile]` for each package file, in order,
mirroring the source's loop as a left fold. -/
def make_chroot_pkg (chroot_dir : String) (user : String)
    (pkgfiles_to_install : List String) : List String :=
  pkgfiles_to_install.foldl (fun acc pkgfile => acc ++ ["-I", pkgfile])
    ["makechrootpkg", "-r", chroot_dir, "-U", user]

end Commands

/-- The closed set of operations of the `Commands` class, one constructor per
method, carrying that method's typed arguments. -/
inductive Op where
  | list_pkgs
  | list_foreign_pkgs_versioned
  | install_pkgs (pkgs : List String)
  | install_files (pkg_files : List String)
  | set_as_explicitly_installed (pkgs : List String)
  | install_deps (deps : List String)
  | is_installable (pkg : String)
  | upgrade
  | remove (pkgs : List String)
  | enable_units (units : List String)
  | disable_units (units : List String)
  | enable_user_units (units : List String)
  | disable_user_units (units : List String)
  | compare_versions (installed_version : String) (new_version : String)
  | git_clone (repo : String) (dest : String)
  | git_diff (from_commit : String)
  | git_get_commit_id
  | review_file (file : String)
  | make_chroot (chroot_root_dir : String) (with_pkgs : List String)
  | make_chroot_pkg (chroot_dir : String) (user : String)
      (pkgfiles_to_install : List String)

/-- The method name an operation dispatches to, as in the source class. -/
def Op.name : Op → String
  | .list_pkgs => "list_pkgs"
  | .list_foreign_pkgs_versioned => "list_foreign_pkgs_versioned"
  | .install_pkgs _ => "install_pkgs"
  | .install_files _ => "install_files"
  | .set_as_explicitly_installed _ => "set_as_explicitly_installed"
  | .install_deps _ => "install_deps"
  | .is_installable _ => "is_installable"
  | .upgrade => "upgrade"
  | .remove _ => "remove"
  | .enable_units _ => "enable_units"
  | .disable_units _ => "disable_units"
  | .enable_user_units _ => "enable_user_units"
  | .disable_user_units _ => "disable_user_units"
  | .compare_versions _ _ => "compare_versions"
  | .git_clone _ _ => "git_clone"
  | .git_diff _ => "git_diff"
  | .git_get_commit_id => "git_get_commit_id"
  | .review_file _ => "review_file"
  | .make_chroot _ _ => "make_chroot"
  | .make_chroot_pkg _ _ _ => "make_chroot_pkg"

/-- The fixed external program of each operation: the literal first token the
default implementation puts in the vector, depending only on the operation,
never on its arguments. -/
def Op.program : Op → String
  | .list_pkgs => "pacman"
  | .list_foreign_pkgs_versioned => "pacman"
  | .install_pkgs _ => "pacman"
  | .install_files _ => "pacman"
  | .set_as_explicitly_installed _ => "pacman"
  | .install_deps _ => "pacman"
  | .is_installable _ => "pacman"
  | .upgrade => "pacman"
  | .remove _ => "pacman"
  | .enable_units _ => "systemctl"
  | .disable_units _ => "systemctl"
  | .enable_user_units _ => "systemctl"
  | .disable_user_units _ => "systemctl"
  | .compare_versions _ _ => "vercmp"
  | .git_clone _ _ => "git"
  | .git_diff _ => "git"
  | .git_get_commit_id => "git"
  | .review_file _ => "less"
  | .make_chroot _ _ => "mkarchroot"
  | .make_chroot_pkg _ _ _ => "makechrootpkg"

/-- The default implementation as a single dispatcher: applying an operation
of the default `Commands` instance to its arguments. -/
def defaultImpl : Op → List String
  | .list_pkgs => Commands.list_pkgs
  | .list_foreign_pkgs_versioned => Commands.list_foreign_pkgs_versioned
  | .install_pkgs pkgs => Commands.install_pkgs pkgs
  | .install_files pkg_files => Commands.install_files pkg_files
  | .set_as_explicitly_installed pkgs => Commands.set_as_explicitly_installed pkgs
  | .install_deps deps => Commands.install_deps deps
  | .is_installable pkg => Commands.is_installable pkg
  | .upgrade => Commands.upgrade
  | .remove pkgs => Commands.remove pkgs
  | .enable_units units => Commands.enable_units units
  | .disable_units units => Commands.disable_units units
  | .enable_user_units units => Commands.enable_user_units units
  | .disable_user_units units => Commands.disable_user_units units
  | .compare_versions iv nv => Commands.compare_versions iv nv
  | .git_clone repo dest => Commands.git_clone repo dest
  | .git_diff from_commit => Commands.git_diff from_commit
  | .git_get_commit_id => Commands.git_get_commit_id
  | .review_file file => Commands.review_file file
  | .make_chroot root pkgs => Commands.make_chroot root pkgs
  | .make_chroot_pkg c u fs => Commands.make_chroot_pkg c u fs

/-- The module-level registry `commands`, initialized to the default
implementation at process start. -/
def commands : Op → List String := defaultImpl

/-- Building a substitute implementation by overriding exactly the operation
named `overridden` with behavior `f`, delegating every other operation to
`base` — the subclass-and-assign customization from the module docstring. -/
def overrideOn (overridden : String) (f : Op → List String)
    (base : Op → List String) : Op → List String :=
  fun op => if op.name = overridden then f op else base op

/-- Module-level value `debug_output`. -/
def debug_output : Bool := false

/-- Module-level value `quiet_output`. -/
def quiet_output : Bool := false

/-- Module-level value `valid_pkgexts`: the recognized package-archive
extension suffixes. -/
def valid_pkgexts : List String :=
  [".pkg.tar", ".pkg.tar.gz", ".pkg.tar.bz2", ".pkg.tar.xz", ".pkg.tar.zst",
   ".pkg.tar.lzo", ".pkg.tar.lrz", ".pkg.tar.lz4", ".pkg.tar.lz", ".pkg.tar.Z"]

/-- Module-level value `makepkg_user`. -/
def makepkg_user : String := "nobody"

/-- Module-level value `build_dir`. -/
def build_dir : String := "/tmp/decman/build"

/-- Module-level value `pkg_cache_dir`. -/
def pkg_cache_dir : String := "/var/cache/decman"

/-- Module-level value `aur_rpc_timeout : typing.Optional[int] = 30`: an
optional integer whose absent state (`none`) is a distinct value from every
present integer. -/
def aur_rpc_timeout : Option Int := some 30

/-- Modelled from the spec: the suffix test used by consumers of
`valid_pkgexts` (the test itself is not in the embedded source file).  A
string ends with a suffix when the suffix's characters are a suffix of the
string's characters. -/
def endsWith (s : String) (suffix : String) : Bool :=
  List.isSuffixOf suffix.data s.data

/-- Modelled from the spec: a file name is recognized as a package archive
when it ends with some member of `valid_pkgexts`; pure membership testing
over the extension set. -/
def recognized (s : String) : Bool :=
  valid_pkgexts.any fun ext => endsWith s ext

/-! ### Helper lemmas -/

/-- Folding the source's `-I` appending loop from any initial vector appends
the flattened `["-I", f]` pairs in input order. -/
theorem foldl_tag_append (fs : List String) (init : List String) :
    fs.foldl (fun acc pkgfile => acc ++ ["-I", pkgfile]) init
      = init ++ fs.flatMap (fun pkgfile => ["-I", pkgfile]) := by
  induction fs generalizing init with
  | nil => simp
  | cons f t ih => simp [List.foldl, ih, List.append_assoc]

/-- Closed form of `make_chroot_pkg`: the five fixed tokens followed by the
`-I`-tagged package files. -/
theorem make_chroot_pkg_eq (c u : String) (fs : List String) :
    Commands.make_chroot_pkg c u fs
      = ["makechrootpkg", "-r", c, "-U", u] ++ fs.flatMap (fun pkgfile => ["-I", pkgfile]) :=
  foldl_tag_append fs _

/-- The input files form a sublist (in order) of their `-I`-tagged flattening. -/
theorem sublist_tag_bind (fs : List String) :
    List.Sublist fs (fs.flatMap fun pkgfile => ["-I", pkgfile]) := by
  induction fs with
  | nil => simp
  | cons f t ih =>
    simp only [List.flatMap_cons]
    exact (ih.cons₂ f).cons "-I"

/-! ### Claims -/

/-- C1: golden vectors of the default implementation:
`install_pkgs ["foo", "bar"]` is exactly
`["pacman", "-S", "--asexplicit", "foo", "bar"]`, and
`make_chroot_pkg "/c" "build" ["a.pkg.tar.zst", "b.pkg.tar.zst"]` is exactly
`["makechrootpkg", "-r", "/c", "-U", "build", "-I", "a.pkg.tar.zst", "-I", "b.pkg.tar.zst"]`. -/
theorem golden_vectors :
    Commands.install_pkgs ["foo", "bar"]
      = ["pacman", "-S", "--asexplicit", "foo", "bar"] ∧
    Commands.make_chroot_pkg "/c" "build" ["a.pkg.tar.zst", "b.pkg.tar.zst"]
      = ["makechrootpkg", "-r", "/c", "-U", "build",
         "-I", "a.pkg.tar.zst", "-I", "b.pkg.tar.zst"] :=
  ⟨rfl, rfl⟩

/-- C2 (code bug evidence): evaluated at the unit list `["default.target"]`,
the default `disable_user_units` produces exactly the same vector as the
system-scope `disable_units` and contains no `--user` token, whereas
`enable_user_units` does carry `--user`; so the code contradicts its own
docstring ("disables the given systemd units for the user it's run as") and
the spec's user-session scoping. -/
theorem disable_user_units_missing_user_scope :
    Commands.disable_user_units ["default.target"]
      = ["systemctl", "disable", "--quiet", "default.target"] ∧
    Commands.disable_user_units ["default.target"]
      = Commands.disable_units ["default.target"] ∧
    "--user" ∉ Commands.disable_user_units ["default.target"] ∧
    "--user" ∈ Commands.enable_user_units ["default.target"] := by
  refine ⟨rfl, rfl, ?_, ?_⟩ <;> decide

/-- C3: for every operation and every well-typed input, the default
implementation's vector is non-empty, its first token is the operation's
fixed external program name — independent of the arguments — and that name
is one of the seven external programs. -/
theorem every_op_nonempty_program_first :
    ∀ op : Op,
      defaultImpl op ≠ [] ∧
      (defaultImpl op).head? = some op.program ∧
      op.program ∈ (["pacman", "systemctl", "vercmp", "git", "less",
                     "mkarchroot", "makechrootpkg"] : List String) := by
  intro op
  cases op <;>
    simp [defaultImpl, Op.program, Commands.list_pkgs,
      Commands.list_foreign_pkgs_versioned, Commands.install_pkgs,
      Commands.install_files, Commands.set_as_explicitly_installed,
      Commands.install_deps, Commands.is_installable, Commands.upgrade,
      Commands.remove, Commands.enable_units, Commands.disable_units,
      Commands.enable_user_units, Commands.disable_user_units,
      Commands.compare_versions, Commands.git_clone, Commands.git_diff,
      Commands.git_get_commit_id, Commands.review_file, Commands.make_chroot,
      make_chroot_pkg_eq]

/-- C4: each list-taking operation of the default implementation places every
input string verbatim, as its own token, in the given order, directly after
the operation's fixed tokens; `make_chroot_pkg` interleaves a `-I` flag
before each file but keeps the files in order after its five fixed tokens. -/
theorem list_args_verbatim_in_order :
    (∀ pkgs : List String,
      Commands.install_pkgs pkgs = ["pacman", "-S", "--asexplicit"] ++ pkgs) ∧
    (∀ pkg_files : List String,
      Commands.install_files pkg_files = ["pacman", "-U", "--asdeps"] ++ pkg_files) ∧
    (∀ pkgs : List String,
      Commands.set_as_explicitly_installed pkgs
        = ["pacman", "-D", "--asexplicit"] ++ pkgs) ∧
    (∀ deps : List String,
      Commands.install_deps deps = ["pacman", "-S", "--needed", "--asdeps"] ++ deps) ∧
    (∀ pkgs : List String, Commands.remove pkgs = ["pacman", "-Rs"] ++ pkgs) ∧
    (∀ units : List String,
      Commands.enable_units units
        = ["systemctl", "enable", "--now", "--quiet"] ++ units) ∧
    (∀ units : List String,
      Commands.disable_units units = ["systemctl", "disable", "--quiet"] ++ units) ∧
    (∀ units : List String,
      Commands.enable_user_units units
        = ["systemctl", "enable", "--now", "--quiet", "--user"] ++ units) ∧
    (∀ units : List String,
      Commands.disable_user_units units
        = ["systemctl", "disable", "--quiet"] ++ units) ∧
    (∀ (root : String) (pkgs : List String),
      Commands.make_chroot root pkgs = ["mkarchroot", root] ++ pkgs) ∧
    (∀ (c u : String) (fs : List String),
      Commands.make_chroot_pkg c u fs
        = ["makechrootpkg", "-r", c, "-U", u]
            ++ fs.flatMap (fun pkgfile => ["-I", pkgfile]) ∧
      List.Sublist fs ((Commands.make_chroot_pkg c u fs).drop 5)) := by
  refine ⟨fun _ => rfl, fun _ => rfl, fun _ => rfl, fun _ => rfl, fun _ => rfl,
    fun _ => rfl, fun _ => rfl, fun _ => rfl, fun _ => rfl, fun _ _ => rfl,
    fun c u fs => ⟨make_chroot_pkg_eq c u fs, ?_⟩⟩
  rw [make_chroot_pkg_eq]
  exact sublist_tag_bind fs

/-- C5: a substitute implementation built from the default by overriding the
single operation named `overridden` agrees with the default implementation
on every operation with a different name, and applies the override exactly
on operations with that name. -/
theorem override_frame :
    ∀ (overridden : String) (f : Op → List String) (op : Op),
      (op.name ≠ overridden →
        overrideOn overridden f defaultImpl op = defaultImpl op) ∧
      (op.name = overridden →
        overrideOn overridden f defaultImpl op = f op) := by
  intro overridden f op
  constructor
  · intro h
    simp [overrideOn, h]
  · intro h
    simp [overrideOn, h]

/-- Witness for C5: overriding `install_pkgs` with a constant-empty behavior
leaves `remove ["x"]` at its default vector, while `install_pkgs ["foo"]`
takes the overridden behavior. -/
theorem override_frame_witness :
    (Op.name (Op.remove ["x"]) ≠ "install_pkgs" ∧
      overrideOn "install_pkgs" (fun _ => []) defaultImpl (Op.remove ["x"])
        = defaultImpl (Op.remove ["x"])) ∧
    (Op.name (Op.install_pkgs ["foo"]) = "install_pkgs" ∧
      overrideOn "install_pkgs" (fun _ => []) defaultImpl (Op.install_pkgs ["foo"])
        = ([] : List String)) :=
  ⟨⟨by decide,
    (override_frame "install_pkgs" (fun _ => []) (Op.remove ["x"])).1 (by decide)⟩,
   ⟨rfl,
    (override_frame "install_pkgs" (fun _ => []) (Op.install_pkgs ["foo"])).2 rfl⟩⟩

/-- C6: argument-vector construction is total — for every operation applied
to any well-typed input (empty lists and empty strings included, via the
arguments carried by `Op`), the default implementation produces a vector;
the embedding has no error, rejection, or failure branch, so its result
type is a plain vector rather than an `Option` or `Except`. -/
theorem construction_total :
    ∀ op : Op, ∃ v : List String, defaultImpl op = v :=
  fun op => ⟨defaultImpl op, rfl⟩

/-- C7: for every pair of version strings, the default `compare_versions`
vector is exactly the three tokens: program name, installed version, new
version, in that order. -/
theorem compare_versions_shape :
    ∀ installed_version new_version : String,
      Commands.compare_versions installed_version new_version
        = ["vercmp", installed_version, new_version] ∧
      (Commands.compare_versions installed_version new_version).length = 3 :=
  fun _ _ => ⟨rfl, rfl⟩

/-- C8: the recognized-extension set is non-empty; for every suffix in the
set, `"pkgname" + suffix` is recognized; a string ending with none of the
listed suffixes is not recognized; and the membership test is
order-independent: any permutation of the set decides the same strings. -/
theorem pkgext_membership (s t : String) (l : List String)
    (hs : ∀ ext ∈ valid_pkgexts, endsWith s ext = false)
    (hl : List.Perm l valid_pkgexts) :
    valid_pkgexts ≠ [] ∧
    (∀ ext ∈ valid_pkgexts, recognized ("pkgname" ++ ext) = true) ∧
    recognized s = false ∧
    (l.any fun ext => endsWith t ext) = recognized t := by
  refine ⟨by decide, by decide, ?_, ?_⟩
  · have : ¬ recognized s = true := by
      simp only [recognized, List.any_eq_true]
      rintro ⟨ext, hmem, hext⟩
      exact absurd hext (by simp [hs ext hmem])
    simpa using this
  · have key : ((l.any fun ext => endsWith t ext) = true)
        ↔ (recognized t = true) := by
      simp only [recognized, List.any_eq_true]
      constructor
      · rintro ⟨ext, hmem, hext⟩
        exact ⟨ext, hl.mem_iff.mp hmem, hext⟩
      · rintro ⟨ext, hmem, hext⟩
        exact ⟨ext, hl.mem_iff.mpr hmem, hext⟩
    cases ha : (l.any fun ext => endsWith t ext) with
    | true => exact (key.mp ha).symm
    | false =>
      cases hb : recognized t with
      | true => exact absurd (key.mpr hb) (by simp [ha])
      | false => rfl

/-- Witness for C8: `"foo"` ends with none of the listed suffixes, and the
reversed extension list is a permutation of the original; instantiating the
theorem there yields all four conclusions for `"foo"` and
`"x.pkg.tar"`. -/
theorem pkgext_membership_witness :
    (∀ ext ∈ valid_pkgexts, endsWith "foo" ext = false) ∧
    List.Perm valid_pkgexts.reverse valid_pkgexts ∧
    (valid_pkgexts ≠ [] ∧
     (∀ ext ∈ valid_pkgexts, recognized ("pkgname" ++ ext) = true) ∧
     recognized "foo" = false ∧
     (valid_pkgexts.reverse.any fun ext => endsWith "x.pkg.tar" ext)
       = recognized "x.pkg.tar") :=
  ⟨by decide, List.reverse_perm valid_pkgexts,
   pkgext_membership "foo" "x.pkg.tar" valid_pkgexts.reverse (by decide)
     (List.reverse_perm valid_pkgexts)⟩

/-- C9: the optional network timeout starts as the present value 30, and the
absent state is a distinct value from every present integer, zero
included. -/
theorem aur_rpc_timeout_optional :
    aur_rpc_timeout = some 30 ∧
    (∀ n : Int, (none : Option Int) ≠ some n) ∧
    aur_rpc_timeout ≠ none :=
  ⟨rfl, fun _ h => Option.noConfusion h, fun h => Option.noConfusion h⟩

/-- C10: every list-taking operation applied to the empty list returns
exactly its fixed tokens with nothing appended. -/
theorem empty_list_gives_fixed_tokens :
    Commands.install_pkgs [] = ["pacman", "-S", "--asexplicit"] ∧
    Commands.install_files [] = ["pacman", "-U", "--asdeps"] ∧
    Commands.set_as_explicitly_installed [] = ["pacman", "-D", "--asexplicit"] ∧
    Commands.install_deps [] = ["pacman", "-S", "--needed", "--asdeps"] ∧
    Commands.remove [] = ["pacman", "-Rs"] ∧
    Commands.enable_units [] = ["systemctl", "enable", "--now", "--quiet"] ∧
    Commands.disable_units [] = ["systemctl", "disable", "--quiet"] ∧
    Commands.enable_user_units []
      = ["systemctl", "enable", "--now", "--quiet", "--user"] ∧
    Commands.disable_user_units [] = ["systemctl", "disable", "--quiet"] ∧
    (∀ root : String, Commands.make_chroot root [] = ["mkarchroot", root]) ∧
    (∀ c u : String,
      Commands.make_chroot_pkg c u [] = ["makechrootpkg", "-r", c, "-U", u]) :=
  ⟨rfl, rfl, rfl, rfl, rfl, rfl, rfl, rfl, rfl, fun _ => rfl, fun _ _ => rfl⟩

end Decman
